import Mathlib

/-!
# Verification of `main.py` (node-hello repository)

The repository consists of a single 8-line PySpark script:

```python
from pyspark.sql import SparkSession

spark = SparkSession.builder.getOrCreate()

data = [(1, "Alice"), (2, "Bob")]
df = spark.createDataFrame(data, ["id", "name"])

df.show()
```

We give a shallow embedding of the script: a small Python-like statement
language rich enough to express branching, exception handling, file writes,
environment reads, randomness, time reads and concurrency constructs (so that
claims about their *absence* are not vacuous), together with an interpreter
parameterised by an external engine (whether the Spark session can start, and
what the random / clock sources would return) and an external environment
(argv, environment variables, file system).  The script itself is embedded as
a term `mainScript` of this language, mirroring `main.py` line by line, and
`runScript` executes it.
-/

namespace NodeHello

/-- A scalar value appearing in a row: the script only uses Python ints and
strings. -/
inductive Cell where
  | int (n : Int)
  | str (s : String)
deriving DecidableEq, Repr

/-- Run-time values of the embedded script.  `tupleList` is a Python list of
tuples of scalars (the shape of the `data` literal); `dataframe` is the
framework-managed tabular structure returned by `createDataFrame`. -/
inductive PyVal where
  | cell (c : Cell)
  | tupleList (rows : List (List Cell))
  | session
  | dataframe (columns : List String) (rows : List (List Cell))
  | noneV
deriving DecidableEq, Repr

/-- Errors: a fatal engine (Spark) error carrying the engine's message, a
schema arity mismatch raised by `createDataFrame`, and generic Python
name/type errors. -/
inductive PyErr where
  | sparkError (msg : String)
  | arityMismatch
  | nameError (x : String)
  | typeError
deriving DecidableEq, Repr

/-- The external distributed engine, as seen by the script: whether
`SparkSession.builder.getOrCreate()` succeeds, and what the (unused by this
script) random and clock sources would return. -/
structure Engine where
  startResult : Except PyErr Unit
  randomVal : Int
  timeVal : Int
deriving Repr

/-- The external environment a process run could depend on: command-line
arguments, environment variables, and the file system. -/
structure Env where
  argv : List String
  vars : List (String × String)
  files : List (String × String)
deriving DecidableEq, Repr

/-- An observable console event: the framework's default tabular display
routine rendering a dataframe (its column names and its rows, in order). -/
inductive Output where
  | table (columns : List String) (rows : List (List Cell))
deriving DecidableEq, Repr

/-- The abstract operations the script performs against the framework,
recorded as a trace: session initialization, in-memory dataframe
construction, and tabular display. -/
inductive Op where
  | initSession
  | createDF (rows : List (List Cell)) (columns : List String)
  | showTable
deriving DecidableEq, Repr

/-- Interpreter state: local variable bindings, the console output so far,
the file system, the trace of framework operations, and counters for
concurrency constructs (threads spawned, locks held). -/
structure PState where
  locals : List (String × PyVal)
  console : List Output
  files : List (String × String)
  ops : List Op
  threadsSpawned : Nat
  locksHeld : List String
deriving DecidableEq, Repr

/-- Look up a name in an association list. -/
def lookupA {α : Type} (x : String) : List (String × α) → Option α
  | [] => Option.none
  | (y, v) :: rest => if y = x then some v else lookupA x rest

/-- Bind (or rebind) a name in an association list. -/
def setA {α : Type} (x : String) (v : α) (l : List (String × α)) :
    List (String × α) :=
  (x, v) :: l

/-- Expressions of the embedded language.  Besides the constructs `main.py`
uses (literals, variable references, `SparkSession.builder.getOrCreate()`,
`spark.createDataFrame(data, cols)`, `df.show()`), the language has
environment reads, file reads, randomness, clock reads and thread spawning,
so that their absence from `mainScript` is a meaningful statement. -/
inductive Expr where
  | lit (v : PyVal)
  | var (x : String)
  | getOrCreate
  | createDataFrame (sess : Expr) (dat : Expr) (cols : List String)
  | showCall (df : Expr)
  | readEnvVar (name : String)
  | readFile (path : String)
  | randomInt
  | currentTime
  | spawnThread
deriving Repr

/-- Statements of the embedded language: straight-line constructs plus
branching (`ifElse`), exception handling (`tryExcept`), file writes and lock
acquisition — again so that claims about their absence are contentful. -/
inductive Stmt where
  | skip
  | seq (a b : Stmt)
  | importFrom (module name : String)
  | assign (x : String) (e : Expr)
  | exprStmt (e : Expr)
  | ifElse (cond : Expr) (thn els : Stmt)
  | tryExcept (body handler : Stmt)
  | writeFile (path : String) (content : Expr)
  | acquireLock (name : String)
deriving Repr

/-- `createDataFrame` semantics: pair each row with the column names,
failing with an arity mismatch when some row's width differs from the number
of columns (PySpark raises in that case). -/
def mkDataFrame (rows : List (List Cell)) (cols : List String) :
    Except PyErr PyVal :=
  if rows.all (fun r => r.length = cols.length)
  then Except.ok (PyVal.dataframe cols rows)
  else Except.error PyErr.arityMismatch

/-- Python truthiness for the embedded values. -/
def truthy : PyVal → Bool
  | PyVal.cell (Cell.int n) => n ≠ 0
  | PyVal.cell (Cell.str s) => s ≠ ""
  | PyVal.tupleList rows => rows ≠ []
  | PyVal.session => true
  | PyVal.dataframe _ _ => true
  | PyVal.noneV => false

/-- Evaluate an expression.  The engine and environment are explicit inputs;
the result is a value and an updated state, or an error. -/
def evalExpr (eng : Engine) (env : Env) : Expr → PState →
    Except PyErr (PyVal × PState)
  | Expr.lit v, s => Except.ok (v, s)
  | Expr.var x, s =>
      match lookupA x s.locals with
      | some v => Except.ok (v, s)
      | Option.none => Except.error (PyErr.nameError x)
  | Expr.getOrCreate, s =>
      match eng.startResult with
      | Except.ok _ =>
          Except.ok (PyVal.session, { s with ops := s.ops ++ [Op.initSession] })
      | Except.error e => Except.error e
  | Expr.createDataFrame sess dat cols, s => do
      let (sv, s1) ← evalExpr eng env sess s
      match sv with
      | PyVal.session => do
          let (dv, s2) ← evalExpr eng env dat s1
          match dv with
          | PyVal.tupleList rows => do
              let df ← mkDataFrame rows cols
              Except.ok (df, { s2 with ops := s2.ops ++ [Op.createDF rows cols] })
          | _ => Except.error PyErr.typeError
      | _ => Except.error PyErr.typeError
  | Expr.showCall dfE, s => do
      let (dv, s1) ← evalExpr eng env dfE s
      match dv with
      | PyVal.dataframe cols rows =>
          Except.ok (PyVal.noneV,
            { s1 with console := s1.console ++ [Output.table cols rows],
                      ops := s1.ops ++ [Op.showTable] })
      | _ => Except.error PyErr.typeError
  | Expr.readEnvVar name, s =>
      match lookupA name env.vars with
      | some v => Except.ok (PyVal.cell (Cell.str v), s)
      | Option.none => Except.ok (PyVal.noneV, s)
  | Expr.readFile path, s =>
      match lookupA path s.files with
      | some c => Except.ok (PyVal.cell (Cell.str c), s)
      | Option.none => Except.error PyErr.typeError
  | Expr.randomInt, s => Except.ok (PyVal.cell (Cell.int eng.randomVal), s)
  | Expr.currentTime, s => Except.ok (PyVal.cell (Cell.int eng.timeVal), s)
  | Expr.spawnThread, s =>
      Except.ok (PyVal.noneV, { s with threadsSpawned := s.threadsSpawned + 1 })

/-- Execute a statement. -/
def execStmt (eng : Engine) (env : Env) : Stmt → PState → Except PyErr PState
  | Stmt.skip, s => Except.ok s
  | Stmt.seq a b, s => do
      let s1 ← execStmt eng env a s
      execStmt eng env b s1
  | Stmt.importFrom _ _, s => Except.ok s
  | Stmt.assign x e, s => do
      let (v, s1) ← evalExpr eng env e s
      Except.ok { s1 with locals := setA x v s1.locals }
  | Stmt.exprStmt e, s => do
      let (_, s1) ← evalExpr eng env e s
      Except.ok s1
  | Stmt.ifElse c t f, s => do
      let (v, s1) ← evalExpr eng env c s
      if truthy v then execStmt eng env t s1 else execStmt eng env f s1
  | Stmt.tryExcept body handler, s =>
      match execStmt eng env body s with
      | Except.ok s1 => Except.ok s1
      | Except.error _ => execStmt eng env handler s
  | Stmt.writeFile path content, s => do
      let (v, s1) ← evalExpr eng env content s
      match v with
      | PyVal.cell (Cell.str c) =>
          Except.ok { s1 with files := setA path c s1.files }
      | _ => Except.error PyErr.typeError
  | Stmt.acquireLock name, s =>
      Except.ok { s with locksHeld := name :: s.locksHeld }

/-- The literal `[(1, "Alice"), (2, "Bob")]` from line 5 of `main.py`. -/
def dataLit : PyVal :=
  PyVal.tupleList [[Cell.int 1, Cell.str "Alice"], [Cell.int 2, Cell.str "Bob"]]

/-- The row tuples of the literal, as raw rows. -/
def dataRows : List (List Cell) :=
  [[Cell.int 1, Cell.str "Alice"], [Cell.int 2, Cell.str "Bob"]]

/-- The column names `["id", "name"]` from line 6 of `main.py`. -/
def sparkCols : List String := ["id", "name"]

/-- The embedding of `main.py`, statement by statement:
line 1 `from pyspark.sql import SparkSession`;
line 3 `spark = SparkSession.builder.getOrCreate()`;
line 5 `data = [(1, "Alice"), (2, "Bob")]`;
line 6 `df = spark.createDataFrame(data, ["id", "name"])`;
line 8 `df.show()`. -/
def mainScript : Stmt :=
  Stmt.seq (Stmt.importFrom "pyspark.sql" "SparkSession")
    (Stmt.seq (Stmt.assign "spark" Expr.getOrCreate)
      (Stmt.seq (Stmt.assign "data" (Expr.lit dataLit))
        (Stmt.seq
          (Stmt.assign "df"
            (Expr.createDataFrame (Expr.var "spark") (Expr.var "data")
              sparkCols))
          (Stmt.exprStmt (Expr.showCall (Expr.var "df"))))))

/-- The state at process start: no locals, nothing on the console, the file
system handed in by the environment, an empty operation trace, no threads, no
locks. -/
def initState (env : Env) : PState :=
  { locals := [], console := [], files := env.files, ops := [],
    threadsSpawned := 0, locksHeld := [] }

/-- Run the script from the initial state. -/
def runScript (eng : Engine) (env : Env) : Except PyErr PState :=
  execStmt eng env mainScript (initState env)

/-- Whether an expression contains any concurrency construct. -/
def exprUsesConcurrency : Expr → Bool
  | Expr.lit _ => false
  | Expr.var _ => false
  | Expr.getOrCreate => false
  | Expr.createDataFrame sess dat _ =>
      exprUsesConcurrency sess || exprUsesConcurrency dat
  | Expr.showCall df => exprUsesConcurrency df
  | Expr.readEnvVar _ => false
  | Expr.readFile _ => false
  | Expr.randomInt => false
  | Expr.currentTime => false
  | Expr.spawnThread => true

/-- Whether a statement contains any concurrency construct (thread spawning
or lock acquisition). -/
def stmtUsesConcurrency : Stmt → Bool
  | Stmt.skip => false
  | Stmt.seq a b => stmtUsesConcurrency a || stmtUsesConcurrency b
  | Stmt.importFrom _ _ => false
  | Stmt.assign _ e => exprUsesConcurrency e
  | Stmt.exprStmt e => exprUsesConcurrency e
  | Stmt.ifElse c t f =>
      exprUsesConcurrency c || stmtUsesConcurrency t || stmtUsesConcurrency f
  | Stmt.tryExcept body handler =>
      stmtUsesConcurrency body || stmtUsesConcurrency handler
  | Stmt.writeFile _ content => exprUsesConcurrency content
  | Stmt.acquireLock _ => true

/-- Whether a statement is straight-line: no branching (`if`/`else`), no
exception handling (`try`/`except`), hence no control flow beyond sequencing. -/
def straightLine : Stmt → Bool
  | Stmt.skip => true
  | Stmt.seq a b => straightLine a && straightLine b
  | Stmt.importFrom _ _ => true
  | Stmt.assign _ _ => true
  | Stmt.exprStmt _ => true
  | Stmt.ifElse _ _ _ => false
  | Stmt.tryExcept _ _ => false
  | Stmt.writeFile _ _ => true
  | Stmt.acquireLock _ => true

/-- Whether an expression reads any external input (environment variables,
files, randomness, the clock). -/
def exprReadsInput : Expr → Bool
  | Expr.lit _ => false
  | Expr.var _ => false
  | Expr.getOrCreate => false
  | Expr.createDataFrame sess dat _ =>
      exprReadsInput sess || exprReadsInput dat
  | Expr.showCall df => exprReadsInput df
  | Expr.readEnvVar _ => true
  | Expr.readFile _ => true
  | Expr.randomInt => true
  | Expr.currentTime => true
  | Expr.spawnThread => false

/-- Whether a statement reads any external input. -/
def stmtReadsInput : Stmt → Bool
  | Stmt.skip => false
  | Stmt.seq a b => stmtReadsInput a || stmtReadsInput b
  | Stmt.importFrom _ _ => false
  | Stmt.assign _ e => exprReadsInput e
  | Stmt.exprStmt e => exprReadsInput e
  | Stmt.ifElse c t f =>
      exprReadsInput c || stmtReadsInput t || stmtReadsInput f
  | Stmt.tryExcept body handler =>
      stmtReadsInput body || stmtReadsInput handler
  | Stmt.writeFile _ content => exprReadsInput content
  | Stmt.acquireLock _ => false

/-- A default engine whose session start succeeds, used as a concrete
witness input. -/
def okEngine : Engine :=
  { startResult := Except.ok (), randomVal := 0, timeVal := 0 }

/-- A concrete non-empty environment, used as a witness input. -/
def someEnv : Env :=
  { argv := ["--verbose"], vars := [("HOME", "/root")],
    files := [("notes.txt", "hi")] }

/-- The empty environment. -/
def emptyEnv : Env := { argv := [], vars := [], files := [] }

/-- Whether a statement writes to files or other storage. -/
def stmtWritesStorage : Stmt → Bool
  | Stmt.skip => false
  | Stmt.seq a b => stmtWritesStorage a || stmtWritesStorage b
  | Stmt.importFrom _ _ => false
  | Stmt.assign _ _ => false
  | Stmt.exprStmt _ => false
  | Stmt.ifElse _ t f => stmtWritesStorage t || stmtWritesStorage f
  | Stmt.tryExcept body handler =>
      stmtWritesStorage body || stmtWritesStorage handler
  | Stmt.writeFile _ _ => true
  | Stmt.acquireLock _ => false

/-- A second engine with the same successful session start but different
random and clock values, used as a concrete witness input. -/
def otherEngine : Engine :=
  { startResult := Except.ok (), randomVal := 42, timeVal := 99 }

/-- The two rows of the displayed table, in order. -/
def shownRows : List (List Cell) :=
  [[Cell.int 1, Cell.str "Alice"], [Cell.int 2, Cell.str "Bob"]]

/-- Claim C1: whenever the session starts, running the script produces
exactly one displayed table, whose columns are `["id", "name"]` in that
order and whose rows are exactly `(1, "Alice")` then `(2, "Bob")`, with no
rows added, removed, or reordered. -/
theorem spec_C1_show_exact_table (eng : Engine) (env : Env)
    (h : eng.startResult = Except.ok ()) :
    Except.map PState.console (runScript eng env) =
      Except.ok [Output.table ["id", "name"] shownRows] := by
  obtain ⟨sr, rv, tv⟩ := eng
  simp only [Engine.startResult] at h
  subst h
  rfl

/-- Witness for C1 at a concrete engine and environment. -/
theorem spec_C1_witness :
    Except.map PState.console (runScript okEngine someEnv) =
      Except.ok [Output.table ["id", "name"] shownRows] :=
  spec_C1_show_exact_table okEngine someEnv rfl

/-- Claim C2: the only data the script constructs is the fixed literal list
of exactly two records, each a pair of an integer identifier and a name
string; that literal is what `data` is bound to, the dataframe is built from
exactly those rows, and the script reads no other data source (no
environment variables, files, randomness or clock). -/
theorem spec_C2_only_literal_data (eng : Engine) (env : Env)
    (h : eng.startResult = Except.ok ()) :
    Except.map (fun s => (lookupA "data" s.locals, lookupA "df" s.locals))
        (runScript eng env) =
      Except.ok (some dataLit, some (PyVal.dataframe sparkCols dataRows)) ∧
    dataLit = PyVal.tupleList
      [[Cell.int 1, Cell.str "Alice"], [Cell.int 2, Cell.str "Bob"]] ∧
    stmtReadsInput mainScript = false := by
  obtain ⟨sr, rv, tv⟩ := eng
  simp only [Engine.startResult] at h
  subst h
  exact ⟨rfl, rfl, rfl⟩

/-- Witness for C2 at a concrete engine and environment. -/
theorem spec_C2_witness :
    Except.map (fun s => (lookupA "data" s.locals, lookupA "df" s.locals))
        (runScript okEngine someEnv) =
      Except.ok (some dataLit, some (PyVal.dataframe sparkCols dataRows)) ∧
    dataLit = PyVal.tupleList
      [[Cell.int 1, Cell.str "Alice"], [Cell.int 2, Cell.str "Bob"]] ∧
    stmtReadsInput mainScript = false :=
  spec_C2_only_literal_data okEngine someEnv rfl

/-- Claim C3: whenever the session starts, the script performs exactly three
framework operations, in this order: session initialization, in-memory
dataframe construction from the literal data, and display — and the script
is straight-line: it contains no branching, looping or other control flow. -/
theorem spec_C3_three_linear_ops (eng : Engine) (env : Env)
    (h : eng.startResult = Except.ok ()) :
    Except.map PState.ops (runScript eng env) =
      Except.ok [Op.initSession, Op.createDF dataRows sparkCols,
        Op.showTable] ∧
    straightLine mainScript = true := by
  obtain ⟨sr, rv, tv⟩ := eng
  simp only [Engine.startResult] at h
  subst h
  exact ⟨rfl, rfl⟩

/-- Witness for C3 at a concrete engine and environment. -/
theorem spec_C3_witness :
    Except.map PState.ops (runScript okEngine someEnv) =
      Except.ok [Op.initSession, Op.createDF dataRows sparkCols,
        Op.showTable] ∧
    straightLine mainScript = true :=
  spec_C3_three_linear_ops okEngine someEnv rfl

/-- Claim C4: the script adds no error handling: if the engine fails to
start the session with error `e`, the whole run fails with exactly that
error, unmodified — no catching, recovery, retry or reporting. -/
theorem spec_C4_error_propagates (eng : Engine) (env : Env) (e : PyErr)
    (h : eng.startResult = Except.error e) :
    runScript eng env = Except.error e := by
  obtain ⟨sr, rv, tv⟩ := eng
  simp only [Engine.startResult] at h
  subst h
  rfl

/-- Witness for C4 at a concrete failing engine. -/
theorem spec_C4_witness :
    runScript { startResult := Except.error (PyErr.sparkError "no engine"),
                randomVal := 0, timeVal := 0 } someEnv =
      Except.error (PyErr.sparkError "no engine") :=
  spec_C4_error_propagates _ someEnv (PyErr.sparkError "no engine") rfl

/-- Claim C5: the observable behaviour does not depend on command-line
flags, environment variables or file inputs: two runs under the same engine
but arbitrary different environments construct the same dataframe and
display the same table, and the script reads no external input at all. -/
theorem spec_C5_env_independent (eng : Engine) (env1 env2 : Env) :
    Except.map (fun s => (lookupA "df" s.locals, s.console))
        (runScript eng env1) =
      Except.map (fun s => (lookupA "df" s.locals, s.console))
        (runScript eng env2) ∧
    stmtReadsInput mainScript = false := by
  obtain ⟨sr, rv, tv⟩ := eng
  cases sr with
  | ok u => exact ⟨rfl, rfl⟩
  | error e => exact ⟨rfl, rfl⟩

/-- Claim C6: the script maintains no persistent state: in every run
outcome the final file system is exactly the environment's initial file
system, and the script contains no statement writing to files or other
storage. -/
theorem spec_C6_no_persistent_state (eng : Engine) (env : Env) :
    Except.map PState.files (runScript eng env) =
      Except.map (fun _ => env.files) (runScript eng env) ∧
    stmtWritesStorage mainScript = false := by
  obtain ⟨sr, rv, tv⟩ := eng
  cases sr with
  | ok u => exact ⟨rfl, rfl⟩
  | error e => exact ⟨rfl, rfl⟩

/-- Claim C7: the script is single-threaded from the caller's perspective:
it contains no thread-spawning or lock construct, and every run outcome ends
with zero threads spawned and no locks held. -/
theorem spec_C7_single_threaded (eng : Engine) (env : Env) :
    stmtUsesConcurrency mainScript = false ∧
    Except.map (fun s => (s.threadsSpawned, s.locksHeld))
        (runScript eng env) =
      Except.map (fun _ => ((0 : Nat), ([] : List String)))
        (runScript eng env) := by
  obtain ⟨sr, rv, tv⟩ := eng
  cases sr with
  | ok u => exact ⟨rfl, rfl⟩
  | error e => exact ⟨rfl, rfl⟩

/-- Claim C8: the script is deterministic: any two successful executions —
under engines with arbitrary different random and clock values and arbitrary
different environments — construct dataframes with identical rows, identical
column names and identical ordering, and display identical tables. -/
theorem spec_C8_deterministic (eng1 : Engine) (env1 : Env) (eng2 : Engine)
    (env2 : Env) (h1 : eng1.startResult = Except.ok ())
    (h2 : eng2.startResult = Except.ok ()) :
    Except.map (fun s => (lookupA "df" s.locals, s.console))
        (runScript eng1 env1) =
      Except.map (fun s => (lookupA "df" s.locals, s.console))
        (runScript eng2 env2) := by
  obtain ⟨sr1, rv1, tv1⟩ := eng1
  obtain ⟨sr2, rv2, tv2⟩ := eng2
  simp only [Engine.startResult] at h1 h2
  subst h1
  subst h2
  rfl

/-- Witness for C8: two engines differing in random and clock values, and
two different environments, yield the same observable run. -/
theorem spec_C8_witness :
    Except.map (fun s => (lookupA "df" s.locals, s.console))
        (runScript okEngine someEnv) =
      Except.map (fun s => (lookupA "df" s.locals, s.console))
        (runScript otherEngine emptyEnv) :=
  spec_C8_deterministic okEngine someEnv otherEngine emptyEnv rfl rfl

/-- Claim C9: the schema binding is well-formed: every row tuple of the
literal data has arity exactly the number of supplied column names (2), so
`createDataFrame` pairs each field with exactly one column name and cannot
fail on an arity mismatch. -/
theorem spec_C9_arity_well_formed :
    sparkCols.length = 2 ∧
    dataRows.all (fun r => r.length = sparkCols.length) = true ∧
    mkDataFrame dataRows sparkCols =
      Except.ok (PyVal.dataframe sparkCols dataRows) :=
  ⟨rfl, rfl, rfl⟩

/-- Claim C10: constructing the dataframe and displaying it leave the source
list unchanged: in every run outcome, the final binding of `data` is still
the literal `[(1, "Alice"), (2, "Bob")]`. -/
theorem spec_C10_data_unchanged (eng : Engine) (env : Env) :
    Except.map (fun s => lookupA "data" s.locals) (runScript eng env) =
      Except.map (fun _ => some dataLit) (runScript eng env) ∧
    dataLit = PyVal.tupleList
      [[Cell.int 1, Cell.str "Alice"], [Cell.int 2, Cell.str "Bob"]] := by
  obtain ⟨sr, rv, tv⟩ := eng
  cases sr with
  | ok u => exact ⟨rfl, rfl⟩
  | error e => exact ⟨rfl, rfl⟩

end NodeHello
